import Mathlib

/-!
Verification of the core of `nut.ts`, a line-number gutter for multi-line
text inputs.  The program measures pixel metrics with a throwaway probe
element, paints line numerals on an off-screen canvas, reapplies the canvas
as the host's background image, diffs style/attribute snapshots to decide
when to re-render, and debounces render requests.

Shallow embedding conventions:
* JS numbers occurring here (DOM integer readbacks, `devicePixelRatio`,
  canvas coordinates) are modelled as rationals (`ℚ`).
* Browser layout is an oracle `BoxStyle → Layout`: the program only chooses
  which styled probe states it reads back, never what the layout engine
  answers.
* `canvas.toDataURL()` is an oracle `Canvas → String`.
* DOM maps (`Map`, `getAttribute`) are total functions into `Option String`
  (`none` = absent/undefined/null, matching JS loose `!=` against strings).
* The numeral-drawing loop `for (index = 0; index < lines; index++)` with a
  possibly infinite JS bound `Math.ceil(scrollHeight / lineHeight)` is
  modelled with an `ℕ∞` line count; a diverging loop yields `none` for the
  list of draw operations.
-/

namespace Nut

/-- The properties of the host's computed style that the program reads
(`mutationStyleProps` plus `fontFamily` reuse in `ctx.font`), together with
`color` as a representative untracked computed-style property. -/
structure CSSStyle where
  paddingTop : String
  paddingRight : String
  lineHeight : String
  fontSize : String
  fontFamily : String
  color : String
deriving DecidableEq

/-- `mutationStyleProps` from the source: the five tracked style property
names, in source order. -/
def mutationStyleProps : List String :=
  ["paddingTop", "paddingRight", "lineHeight", "fontSize", "fontFamily"]

/-- Dynamic property read `style[prop]` for the property names the program
uses.  Unknown names read back as the empty string. -/
def styleIdx (css : CSSStyle) : String → String
  | "paddingTop" => css.paddingTop
  | "paddingRight" => css.paddingRight
  | "lineHeight" => css.lineHeight
  | "fontSize" => css.fontSize
  | "fontFamily" => css.fontFamily
  | _ => ""

/-- `dataAttrs` from the source: the four configuration attribute names in
the insertion order of `dataAttrsMap` (Width, Padding, Color, BgColor). -/
def dataAttrs : List String :=
  ["data-nut-width", "data-nut-padding", "data-nut-color", "data-nut-bg-color"]

/-- An element's attribute map: `getAttribute` returns `none` for an absent
attribute (JS `null`). -/
def Attrs : Type := String → Option String

/-- `TStyles` from the source: the optional override record passed to the
constructor (`nut(el, styles)`).  A `none` field is an absent key. -/
structure TStyles where
  numberWidth : Option String := none
  numberPadding : Option String := none
  numberColor : Option String := none
  numberBgColor : Option String := none
deriving DecidableEq

/-- A fully resolved configuration record, as produced by `ensureStyles`. -/
structure TStylesR where
  numberPadding : String
  numberWidth : String
  numberColor : String
  numberBgColor : String
deriving DecidableEq

/-- `TMeasure` from the source. -/
structure TMeasure where
  lineHeight : ℚ
  fontSize : ℚ
  paddingTop : ℚ
  paddingRight : ℚ
  nuWidth : ℚ
  nuPadding : ℚ
deriving DecidableEq

/-- The inline style state of the throwaway probe `div` used by
`getMeasure`, with the `padding` shorthand split into its four components
(the source writes both the shorthand and `paddingRight` individually). -/
structure BoxStyle where
  width : String
  margin : String
  paddingTop : String
  paddingRight : String
  paddingBottom : String
  paddingLeft : String
  fontFamily : String
  fontSize : String
  lineHeight : String
  content : String
deriving DecidableEq

/-- A layout readback of the probe: `clientHeight` and `clientWidth`. -/
structure Layout where
  clientHeight : ℚ
  clientWidth : ℚ
deriving DecidableEq

/-- The layout engine as an oracle from probe style to readback. -/
def LayoutOracle : Type := BoxStyle → Layout

/-- `getMeasure` from the source, transcribed statement by statement: the
probe starts with zero width/margin, `padding: <top> <right> 0 0` and the
host's font properties; each mutation/readback follows in source order. -/
def getMeasure (layout : LayoutOracle) (css : CSSStyle) (styles : TStylesR) :
    TMeasure :=
  let box : BoxStyle :=
    { width := "0", margin := "0",
      paddingTop := css.paddingTop, paddingRight := css.paddingRight,
      paddingBottom := "0", paddingLeft := "0",
      fontFamily := css.fontFamily, fontSize := css.fontSize,
      lineHeight := css.lineHeight, content := "" }
  let paddingTop := (layout box).clientHeight
  let paddingRight := (layout box).clientWidth
  let box := { box with paddingRight := styles.numberPadding }
  let nuPadding := (layout box).clientWidth
  let box := { box with paddingTop := "0", paddingRight := "0",
                        paddingBottom := "0", paddingLeft := "0",
                        width := styles.numberWidth }
  let nuWidth := (layout box).clientWidth
  let box := { box with content := " " }
  let lineHeight := (layout box).clientHeight
  let box := { box with lineHeight := "1" }
  let fontSize := (layout box).clientHeight
  { lineHeight := lineHeight, fontSize := fontSize,
    paddingRight := paddingRight, paddingTop := paddingTop,
    nuWidth := nuWidth, nuPadding := nuPadding }

/-- Stage 1 of the spec's probe description: zero width/margin, the host's
top/right padding, the host's font properties, no content. -/
def probeStage1 (css : CSSStyle) : BoxStyle :=
  { width := "0", margin := "0",
    paddingTop := css.paddingTop, paddingRight := css.paddingRight,
    paddingBottom := "0", paddingLeft := "0",
    fontFamily := css.fontFamily, fontSize := css.fontSize,
    lineHeight := css.lineHeight, content := "" }

/-- Stage 2: the configured gutter padding becomes the probe's right
padding. -/
def probeStage2 (css : CSSStyle) (styles : TStylesR) : BoxStyle :=
  { probeStage1 css with paddingRight := styles.numberPadding }

/-- Stage 3: padding removed, width set to the configured gutter width. -/
def probeStage3 (css : CSSStyle) (styles : TStylesR) : BoxStyle :=
  { probeStage2 css styles with
      paddingTop := "0", paddingRight := "0",
      paddingBottom := "0", paddingLeft := "0",
      width := styles.numberWidth }

/-- Stage 4: a non-breaking space inserted as content. -/
def probeStage4 (css : CSSStyle) (styles : TStylesR) : BoxStyle :=
  { probeStage3 css styles with content := " " }

/-- Stage 5: line-height forced to the neutral ratio 1. -/
def probeStage5 (css : CSSStyle) (styles : TStylesR) : BoxStyle :=
  { probeStage4 css styles with lineHeight := "1" }

/-- Claim C3: `getMeasure` derives its six metrics by the five-stage probe
readback, in this exact order: stage 1 yields height = `paddingTop` and
width = `paddingRight`; stage 2 (right padding := configured gutter
padding) yields width = `nuPadding`; stage 3 (padding removed, width :=
configured gutter width) yields width = `nuWidth`; stage 4 (non-breaking
space content) yields height = `lineHeight`; stage 5 (line-height forced to
1) yields height = `fontSize`. -/
theorem getMeasure_five_stages (layout : LayoutOracle) (css : CSSStyle)
    (styles : TStylesR) :
    getMeasure layout css styles =
      { lineHeight := (layout (probeStage4 css styles)).clientHeight,
        fontSize := (layout (probeStage5 css styles)).clientHeight,
        paddingRight := (layout (probeStage1 css)).clientWidth,
        paddingTop := (layout (probeStage1 css)).clientHeight,
        nuWidth := (layout (probeStage3 css styles)).clientWidth,
        nuPadding := (layout (probeStage2 css styles)).clientWidth } := by
  rfl

/-! ### Debounced scheduler

`debounce(func, wait, ctx)` keeps one timeout slot per wrapped function.
Each call does `clearTimeout(timeout); timeout = setTimeout(body, wait)`.
We model a run as a fold over the (nondecreasing) call times: the state
holds the pending deadline (if any) and the number of times the body has
executed.  A pending timer with deadline `d` has fired by the time a later
call at `t ≥ d` arrives; a call at `t < d` cancels it.  After the last
call, a still-pending timer fires once the quiet interval elapses. -/

/-- State of one debounced function: the pending `setTimeout` deadline and
the number of completed executions of the wrapped body. -/
structure DebState where
  pending : Option ℕ
  fires : ℕ
deriving DecidableEq

/-- One call of the debounced wrapper at time `t`: any pending timer whose
deadline has already passed has fired; a still-pending timer is cancelled
by `clearTimeout`; either way `setTimeout` re-arms the slot at `t + wait`. -/
def debStep (wait : ℕ) (s : DebState) (t : ℕ) : DebState :=
  match s.pending with
  | none => { pending := some (t + wait), fires := s.fires }
  | some d =>
      if d ≤ t then { pending := some (t + wait), fires := s.fires + 1 }
      else { pending := some (t + wait), fires := s.fires }

/-- Run the debounced wrapper over a list of call times, starting idle. -/
def debRun (wait : ℕ) (ts : List ℕ) : DebState :=
  ts.foldl (debStep wait) { pending := none, fires := 0 }

/-- Total number of executions of the wrapped body once all calls are
issued and the final quiet interval has elapsed (a pending timer fires). -/
def debTotal (wait : ℕ) (ts : List ℕ) : ℕ :=
  (debRun wait ts).fires + (if (debRun wait ts).pending.isSome then 1 else 0)

/-- The quiet interval of the render trigger:
`render = debounce(this.handleRender, 20, this)`. -/
def renderWait : ℕ := 20

/-- Every call re-arms the timeout slot: after any call the pending
deadline is that call's time plus the quiet interval. -/
theorem debStep_pending (wait : ℕ) (s : DebState) (t : ℕ) :
    (debStep wait s t).pending = some (t + wait) := by
  cases hs : s.pending with
  | none => simp [debStep, hs]
  | some d =>
      by_cases hd : d ≤ t <;> simp [debStep, hs, hd]

/-- After a nonempty sequence of calls the pending deadline is the last
call time plus the quiet interval, whatever fired in between. -/
theorem debFold_pending (wait : ℕ) (ts : List ℕ) :
    ∀ (s : DebState) (t : ℕ),
      (ts.foldl (debStep wait) (debStep wait s t)).pending =
        some (ts.getLastD t + wait) := by
  induction ts with
  | nil => intro s t; exact debStep_pending wait s t
  | cons u ts ih =>
      intro s t
      simp only [List.foldl_cons, List.getLastD_cons]
      exact ih (debStep wait s t) u

/-- Folding further calls that each arrive strictly before the pending
deadline never fires the body and just re-arms the timer at the last call
plus the quiet interval. -/
theorem debFold_burst (wait : ℕ) (rest : List ℕ) :
    ∀ t c, List.Chain' (fun a b => b < a + wait) (t :: rest) →
      rest.foldl (debStep wait) { pending := some (t + wait), fires := c } =
        { pending := some (rest.getLastD t + wait), fires := c } := by
  induction rest with
  | nil => intro t c _; rfl
  | cons u rest ih =>
      intro t c h
      have hut : u < t + wait := (List.chain'_cons.mp h).1
      have htail : List.Chain' (fun a b => b < a + wait) (u :: rest) :=
        (List.chain'_cons.mp h).2
      simp only [List.foldl_cons, List.getLastD_cons]
      have hstep : debStep wait { pending := some (t + wait), fires := c } u =
          { pending := some (u + wait), fires := c } := by
        simp [debStep, Nat.not_le.mpr hut]
      rw [hstep, ih u c htail]

/-- Folding further calls that each arrive strictly after the pending
deadline fires the body once per pending timer. -/
theorem debFold_spaced (wait : ℕ) (rest : List ℕ) :
    ∀ t c, List.Chain' (fun a b => a + wait < b) (t :: rest) →
      rest.foldl (debStep wait) { pending := some (t + wait), fires := c } =
        { pending := some (rest.getLastD t + wait), fires := c + rest.length } := by
  induction rest with
  | nil => intro t c _; rfl
  | cons u rest ih =>
      intro t c h
      have hut : t + wait < u := (List.chain'_cons.mp h).1
      have htail : List.Chain' (fun a b => a + wait < b) (u :: rest) :=
        (List.chain'_cons.mp h).2
      simp only [List.foldl_cons, List.getLastD_cons]
      have hstep : debStep wait { pending := some (t + wait), fires := c } u =
          { pending := some (u + wait), fires := c + 1 } := by
        simp [debStep, Nat.le_of_lt hut]
      rw [hstep, ih u (c + 1) htail, List.length_cons]
      have harith : c + 1 + rest.length = c + (rest.length + 1) := by omega
      rw [harith]

/-- Claim C2: the debounced render trigger re-arms a 20-unit timer at every
call, measured from the most recent call (the final pending deadline is the
last call time plus 20); a burst of N calls each issued less than 20 units
after the previous one executes the render body exactly once, after the
window closes; N calls each spaced more than 20 units apart execute it N
times. -/
theorem debounce_coalesces (t : ℕ) (rest : List ℕ) :
    ((debRun renderWait (t :: rest)).pending =
        some ((t :: rest).getLastD 0 + renderWait)) ∧
    (List.Chain' (fun a b => b < a + renderWait) (t :: rest) →
        debTotal renderWait (t :: rest) = 1) ∧
    (List.Chain' (fun a b => a + renderWait < b) (t :: rest) →
        debTotal renderWait (t :: rest) = (t :: rest).length) := by
  refine ⟨?_, ?_, ?_⟩
  · unfold debRun
    simp only [List.foldl_cons, List.getLastD_cons]
    exact debFold_pending renderWait rest { pending := none, fires := 0 } t
  · intro h
    have h0 : debRun renderWait (t :: rest) =
        { pending := some (rest.getLastD t + renderWait), fires := 0 } := by
      unfold debRun
      simp only [List.foldl_cons]
      have : debStep renderWait { pending := none, fires := 0 } t =
          { pending := some (t + renderWait), fires := 0 } := rfl
      rw [this, debFold_burst renderWait rest t 0 h]
    simp [debTotal, h0]
  · intro h
    have h0 : debRun renderWait (t :: rest) =
        { pending := some (rest.getLastD t + renderWait),
          fires := 0 + rest.length } := by
      unfold debRun
      simp only [List.foldl_cons]
      have : debStep renderWait { pending := none, fires := 0 } t =
          { pending := some (t + renderWait), fires := 0 } := rfl
      rw [this, debFold_spaced renderWait rest t 0 h]
    simp [debTotal, h0]

/-- Witness for the debounce claim: three calls at 0, 5, 9 (gaps below 20)
run the body once; three calls at 0, 30, 60 (gaps above 20) run it three
times. -/
theorem debounce_coalesces_witness :
    debTotal renderWait [0, 5, 9] = 1 ∧
    debTotal renderWait [0, 30, 60] = ([0, 30, 60] : List ℕ).length :=
  ⟨(debounce_coalesces 0 [5, 9]).2.1
      (by norm_num [List.chain'_cons, renderWait]),
   (debounce_coalesces 0 [30, 60]).2.2
      (by norm_num [List.chain'_cons, renderWait])⟩

/-! ### Change detector (`StyleMutation`)

`prevStyle` and `prevData` are JS `Map`s; we model each as a total function
`String → Option String` (`none` = key absent).  `getAttribute` can return
`null`, which under JS loose `!=` is equivalent to a missing key, so the
data snapshot stores the attribute lookup's `Option` directly.  Loose
inequality `value != prevValue` between a style string and the map lookup
is exactly `Option String` inequality against `some value`. -/

/-- The snapshot held by one `StyleMutation` instance. -/
structure Snapshot where
  style : String → Option String
  data : String → Option String

/-- A snapshot with no keys, as after `new StyleMutation()`. -/
def emptySnap : Snapshot :=
  { style := fun _ => none, data := fun _ => none }

/-- `Map.set` on the style snapshot. -/
def setKey (f : String → Option String) (p : String) (v : String) :
    String → Option String :=
  fun q => if q = p then some v else f q

/-- `StyleMutation.set(style, el)`: capture every tracked style property and
every configuration attribute into the snapshot. -/
def snapSet (s : Snapshot) (css : CSSStyle) (attrs : Attrs) : Snapshot :=
  { style := fun p =>
      if p ∈ mutationStyleProps then some (styleIdx css p) else s.style p,
    data := fun a => if a ∈ dataAttrs then attrs a else s.data a }

/-- The loop body chain of `styleDiff`: walk the tracked property names,
and for each whose current value loosely differs from the snapshot, set the
result flag and update the snapshot entry. -/
def styleDiffAux (css : CSSStyle) :
    List String → (String → Option String) → Bool →
      Bool × (String → Option String)
  | [], prev, r => (r, prev)
  | p :: rest, prev, r =>
      let v := styleIdx css p
      if prev p ≠ some v then
        styleDiffAux css rest (setKey prev p v) true
      else
        styleDiffAux css rest prev r

/-- `StyleMutation.styleDiff(style)`: returns whether any tracked property
changed, together with the instance's updated snapshot. -/
def styleDiff (s : Snapshot) (css : CSSStyle) : Bool × Snapshot :=
  let out := styleDiffAux css mutationStyleProps s.style false
  (out.1, { s with style := out.2 })

/-- The loop body chain of `dataDiff`, over the configuration attributes. -/
def dataDiffAux (attrs : Attrs) :
    List String → (String → Option String) → Bool →
      Bool × (String → Option String)
  | [], prev, r => (r, prev)
  | a :: rest, prev, r =>
      let v := attrs a
      if prev a ≠ v then
        dataDiffAux attrs rest (fun q => if q = a then v else prev q) true
      else
        dataDiffAux attrs rest prev r

/-- `StyleMutation.dataDiff(el)`: returns whether any configuration
attribute changed, together with the updated snapshot. -/
def dataDiff (s : Snapshot) (attrs : Attrs) : Bool × Snapshot :=
  let out := dataDiffAux attrs dataAttrs s.data false
  (out.1, { s with data := out.2 })

/-- If every walked property's snapshot entry already equals its current
value, the diff walk changes nothing and returns the incoming flag. -/
theorem styleDiffAux_all_eq (css : CSSStyle) :
    ∀ (l : List String) (prev : String → Option String) (r : Bool),
      (∀ p ∈ l, prev p = some (styleIdx css p)) →
        styleDiffAux css l prev r = (r, prev) := by
  intro l
  induction l with
  | nil => intro prev r _; rfl
  | cons p rest ih =>
      intro prev r h
      have hp : prev p = some (styleIdx css p) := h p (by simp)
      simp only [styleDiffAux, hp, ne_eq, not_true_eq_false, if_neg,
        not_false_eq_true, not_not, if_pos]
      exact ih prev r fun q hq => h q (by simp [hq])

/-- Once the result flag is set it stays set for the rest of the walk. -/
theorem styleDiffAux_true (css : CSSStyle) :
    ∀ (l : List String) (prev : String → Option String),
      (styleDiffAux css l prev true).1 = true := by
  intro l
  induction l with
  | nil => intro prev; rfl
  | cons p rest ih =>
      intro prev
      simp only [styleDiffAux]
      by_cases hp : prev p ≠ some (styleIdx css p)
      · rw [if_pos hp]
        exact ih (setKey prev p (styleIdx css p))
      · rw [if_neg hp]
        exact ih prev

/-- If some walked property's snapshot entry differs from its current
value, the walk reports a change. -/
theorem styleDiffAux_fires (css : CSSStyle) :
    ∀ (l : List String) (prev : String → Option String) (r : Bool)
      (p : String), p ∈ l → prev p ≠ some (styleIdx css p) →
        (styleDiffAux css l prev r).1 = true := by
  intro l
  induction l with
  | nil => intro prev r p hp; exact absurd hp (List.not_mem_nil p)
  | cons q rest ih =>
      intro prev r p hp hne
      simp only [styleDiffAux]
      rcases List.mem_cons.mp hp with hpq | hpr
      · subst hpq
        rw [if_pos hne]
        exact styleDiffAux_true css rest (setKey prev p (styleIdx css p))
      · by_cases hq : prev q ≠ some (styleIdx css q)
        · rw [if_pos hq]
          exact styleDiffAux_true css rest (setKey prev q (styleIdx css q))
        · rw [if_neg hq]
          exact ih prev r p hpr hne

/-- The walk never touches snapshot entries outside the walked list. -/
theorem styleDiffAux_not_mem (css : CSSStyle) :
    ∀ (l : List String) (prev : String → Option String) (r : Bool)
      (q : String), q ∉ l →
        (styleDiffAux css l prev r).2 q = prev q := by
  intro l
  induction l with
  | nil => intro prev r q _; rfl
  | cons p rest ih =>
      intro prev r q hq
      have hqp : q ≠ p := fun h => hq (by simp [h])
      have hqr : q ∉ rest := fun h => hq (by simp [h])
      simp only [styleDiffAux]
      by_cases hp : prev p ≠ some (styleIdx css p)
      · rw [if_pos hp, ih (setKey prev p (styleIdx css p)) true q hqr]
        simp [setKey, hqp]
      · rw [if_neg hp]
        exact ih prev r q hqr

/-- After the walk, every walked property's snapshot entry holds its
current value (walked lists are duplicate-free here). -/
theorem styleDiffAux_sets (css : CSSStyle) :
    ∀ (l : List String) (prev : String → Option String) (r : Bool)
      (p : String), l.Nodup → p ∈ l →
        (styleDiffAux css l prev r).2 p = some (styleIdx css p) := by
  intro l
  induction l with
  | nil => intro prev r p _ hp; exact absurd hp (List.not_mem_nil p)
  | cons q rest ih =>
      intro prev r p hnd hp
      have hndr : rest.Nodup := (List.nodup_cons.mp hnd).2
      simp only [styleDiffAux]
      rcases List.mem_cons.mp hp with hpq | hpr
      · subst hpq
        have hqr : p ∉ rest := (List.nodup_cons.mp hnd).1
        by_cases hq : prev p ≠ some (styleIdx css p)
        · rw [if_pos hq, styleDiffAux_not_mem css rest _ true p hqr]
          simp [setKey]
        · rw [if_neg hq, styleDiffAux_not_mem css rest prev r p hqr]
          simpa using hq
      · by_cases hq : prev q ≠ some (styleIdx css q)
        · rw [if_pos hq]
          exact ih (setKey prev q (styleIdx css q)) true p hndr hpr
        · rw [if_neg hq]
          exact ih prev r p hndr hpr

/-- Tracked properties read through `styleIdx` never depend on the
untracked `color` property. -/
theorem styleIdx_color_invariant (css : CSSStyle) (c : String) :
    ∀ p ∈ mutationStyleProps,
      styleIdx { css with color := c } p = styleIdx css p := by
  intro p hp
  fin_cases hp <;> rfl

/-- Claim C6: `styleDiff` compares exactly the five tracked properties
{paddingTop, paddingRight, lineHeight, fontSize, fontFamily} under loose
inequality.  Immediately after `set` with unchanged inputs it returns
false; it returns true the first time any tracked property differs, and on
return the snapshot holds the new values (so a further `set`/diff with the
same values returns false); a change to the untracked `color` property
alone never fires. -/
theorem styleDiff_snapshot_protocol (s : Snapshot) (css : CSSStyle)
    (attrs : Attrs) :
    ((styleDiff (snapSet s css attrs) css).1 = false) ∧
    (∀ (css' : CSSStyle) (p : String), p ∈ mutationStyleProps →
        styleIdx css' p ≠ styleIdx css p →
        (styleDiff (snapSet s css attrs) css').1 = true) ∧
    (∀ c : String,
        (styleDiff (snapSet s css attrs) { css with color := c }).1 = false) ∧
    (∀ (css' : CSSStyle) (p : String), p ∈ mutationStyleProps →
        ((styleDiff (snapSet s css attrs) css').2).style p =
          some (styleIdx css' p)) := by
  refine ⟨?_, ?_, ?_, ?_⟩
  · have h := styleDiffAux_all_eq css mutationStyleProps
      (snapSet s css attrs).style false (by intro p hp; simp [snapSet, hp])
    simp [styleDiff, h]
  · intro css' p hp hne
    have hprev : (snapSet s css attrs).style p = some (styleIdx css p) := by
      simp [snapSet, hp]
    have h := styleDiffAux_fires css' mutationStyleProps
      (snapSet s css attrs).style false p hp
      (by rw [hprev]; simpa using fun h => hne h.symm)
    simp [styleDiff, h]
  · intro c
    have h := styleDiffAux_all_eq { css with color := c } mutationStyleProps
      (snapSet s css attrs).style false
      (by
        intro p hp
        rw [styleIdx_color_invariant css c p hp]
        simp [snapSet, hp])
    simp [styleDiff, h]
  · intro css' p hp
    have hnd : mutationStyleProps.Nodup := by decide
    have h := styleDiffAux_sets css' mutationStyleProps
      (snapSet s css attrs).style false p hnd hp
    simp [styleDiff, h]

/-- Witness for the change-detector claim: capture a concrete style, see no
change on re-diff, see a change after `paddingTop` moves, and find the
snapshot updated to the new value. -/
theorem styleDiff_snapshot_protocol_witness :
    ((styleDiff (snapSet emptySnap
        ⟨"1px", "2px", "20px", "16px", "serif", "red"⟩ (fun _ => none))
        ⟨"1px", "2px", "20px", "16px", "serif", "red"⟩).1 = false) ∧
    ((styleDiff (snapSet emptySnap
        ⟨"1px", "2px", "20px", "16px", "serif", "red"⟩ (fun _ => none))
        ⟨"3px", "2px", "20px", "16px", "serif", "red"⟩).1 = true) ∧
    ((styleDiff (snapSet emptySnap
        ⟨"1px", "2px", "20px", "16px", "serif", "red"⟩ (fun _ => none))
        ⟨"1px", "2px", "20px", "16px", "serif", "blue"⟩).1 = false) ∧
    ((styleDiff (snapSet emptySnap
        ⟨"1px", "2px", "20px", "16px", "serif", "red"⟩ (fun _ => none))
        ⟨"3px", "2px", "20px", "16px", "serif", "red"⟩).2.style
        "paddingTop" = some "3px") := by
  refine ⟨?_, ?_, ?_, ?_⟩
  · exact (styleDiff_snapshot_protocol emptySnap
      ⟨"1px", "2px", "20px", "16px", "serif", "red"⟩ (fun _ => none)).1
  · exact (styleDiff_snapshot_protocol emptySnap
      ⟨"1px", "2px", "20px", "16px", "serif", "red"⟩ (fun _ => none)).2.1
      ⟨"3px", "2px", "20px", "16px", "serif", "red"⟩ "paddingTop"
      (by decide) (by decide)
  · exact (styleDiff_snapshot_protocol emptySnap
      ⟨"1px", "2px", "20px", "16px", "serif", "red"⟩ (fun _ => none)).2.2.1
      "blue"
  · exact (styleDiff_snapshot_protocol emptySnap
      ⟨"1px", "2px", "20px", "16px", "serif", "red"⟩ (fun _ => none)).2.2.2
      ⟨"3px", "2px", "20px", "16px", "serif", "red"⟩ "paddingTop"
      (by decide)

/-! ### Configuration resolution (`ensureStyles`) -/

/-- JS `a || d` for `getAttr`: an absent (`null`) or empty attribute string
is falsy and falls back to the default. -/
def jsOrDefault (v : Option String) (d : String) : String :=
  match v with
  | none => d
  | some s => if s = "" then d else s

/-- `Nu.getAttr(attr, defaultValue)`: read the host attribute, falling back
to the default when it is absent or falsy. -/
def getAttr (attrs : Attrs) (name d : String) : String :=
  jsOrDefault (attrs name) d

/-- `Nu.ensureStyles()`: attribute-derived values with defaults, then the
constructor's override record spread on top (a present override key wins). -/
def ensureStyles (attrs : Attrs) (override : TStyles) : TStylesR :=
  { numberPadding :=
      (override.numberPadding).getD (getAttr attrs "data-nut-padding" "8px"),
    numberWidth :=
      (override.numberWidth).getD (getAttr attrs "data-nut-width" "64px"),
    numberColor :=
      (override.numberColor).getD (getAttr attrs "data-nut-color" "#666"),
    numberBgColor :=
      (override.numberBgColor).getD
        (getAttr attrs "data-nut-bg-color" "#f4f4f4") }

/-- Modelled from the spec's resolution rule for one configuration field:
an explicitly supplied override value takes precedence; otherwise the value
derived from the host attribute (an empty attribute value counts as not
supplied); otherwise the declared default. -/
def specResolveField (ov : Option String) (attr : Option String)
    (d : String) : String :=
  match ov with
  | some v => v
  | none =>
      match attr with
      | some a => if a = "" then d else a
      | none => d

/-- Modelled from the spec: the full configuration record resolved from the
host's current data attributes with the declared defaults
(64px / 8px / #666 / #f4f4f4), override first. -/
def specResolveStyles (attrs : Attrs) (override : TStyles) : TStylesR :=
  { numberPadding :=
      specResolveField override.numberPadding (attrs "data-nut-padding") "8px",
    numberWidth :=
      specResolveField override.numberWidth (attrs "data-nut-width") "64px",
    numberColor :=
      specResolveField override.numberColor (attrs "data-nut-color") "#666",
    numberBgColor :=
      specResolveField override.numberBgColor
        (attrs "data-nut-bg-color") "#f4f4f4" }

/-! ### Render engine -/

/-- One `ctx.fillText` call: the numeral string and its end-anchored
position. -/
structure DrawOp where
  text : String
  x : ℚ
  y : ℚ
deriving DecidableEq

/-- The canvas state after a render pass: dimensions, background fill,
numeral fill color, text alignment, font, and the emitted `fillText`
operations (`none` when the drawing loop diverges). -/
structure Canvas where
  width : ℚ
  height : ℚ
  background : String
  fillColor : String
  textAlign : String
  fontSizePx : ℚ
  fontFamily : String
  ops : Option (List DrawOp)
deriving DecidableEq

/-- The inline style declarations `setStyle` appends to the host. -/
structure HostStyleWrite where
  paddingLeftPx : ℚ
  boxSizing : String
  backgroundRepeat : String
  backgroundAttachment : String
  backgroundSizeWidthPx : ℚ
  backgroundSizeHeight : String
  backgroundImage : String
deriving DecidableEq

/-- `Nu.setStyle(measure, dataURL)`, transcribed declaration by
declaration (units: `paddingLeftPx` and `backgroundSizeWidthPx` carry the
`px` suffix; the background-size height component is the keyword `auto`). -/
def setStyle (measure : TMeasure) (dataURL : String) : HostStyleWrite :=
  { paddingLeftPx := measure.nuWidth + measure.paddingRight,
    boxSizing := "border-box",
    backgroundRepeat := "no-repeat",
    backgroundAttachment := "local",
    backgroundSizeWidthPx := measure.nuWidth,
    backgroundSizeHeight := "auto",
    backgroundImage := "url(" ++ dataURL ++ ")" }

/-- `Nu.drawLine(measure, index, lineHeight, fontSize)`: one numeral at
`x = canvas.width - nuPadding * dpr * 2` and
`y = paddingTop * dpr + lineHeight * index + (lineHeight + fontSize) / 2`,
where `lineHeight` and `fontSize` are the DPR-scaled values the caller
passes. -/
def drawLine (canvasWidth dpr : ℚ) (measure : TMeasure) (index : ℕ)
    (lineHeight fontSize : ℚ) : DrawOp :=
  { text := Nat.repr (index + 1),
    x := canvasWidth - measure.nuPadding * dpr * 2,
    y := measure.paddingTop * dpr + lineHeight * (index : ℚ) +
      (lineHeight + fontSize) / 2 }

/-- The loop bound `Math.ceil(scrollHeight / lineHeight)` of the drawing
loop, with JS division semantics at a zero line height: a positive scroll
height over zero gives `+Infinity` (the loop diverges, `⊤`); `0 / 0` is
`NaN`, and `index < NaN` fails at once (zero iterations).  A negative
quotient gives a non-positive bound and zero iterations. -/
def jsLines (scrollHeight lineHeight : ℚ) : ℕ∞ :=
  if lineHeight = 0 then (if 0 < scrollHeight then ⊤ else 0)
  else ((⌈scrollHeight / lineHeight⌉.toNat : ℕ) : ℕ∞)

/-- The result of one `handleRender` invocation: the recaptured snapshot,
the repainted canvas, and the style write applied to the host (absent when
the drawing loop diverges and the pass never reaches `setStyle`). -/
structure RenderResult where
  snapshot : Snapshot
  canvas : Canvas
  hostWrite : Option HostStyleWrite

/-- `Nu.handleRender()`, transcribed in source order: read computed style,
re-resolve the configuration, measure, capture the snapshot, resize and
repaint the canvas (background fill, numeral color, end alignment,
DPR-scaled font), draw one numeral per line, and reapply the exported
raster through `setStyle`.  `prev` is the instance's snapshot state on
entry; `dataURLOf` is the `canvas.toDataURL()` oracle. -/
def handleRender (layout : LayoutOracle) (dataURLOf : Canvas → String)
    (css : CSSStyle) (attrs : Attrs) (override : TStyles)
    (scrollHeight dpr : ℚ) (prev : Snapshot) : RenderResult :=
  let styles := ensureStyles attrs override
  let measure := getMeasure layout css styles
  let snap := snapSet prev css attrs
  let fontSizeDPR := measure.fontSize * dpr
  let lineHeightDPR := measure.lineHeight * dpr
  let lines := jsLines scrollHeight measure.lineHeight
  let canvasWidth := measure.nuWidth * dpr
  let ops : Option (List DrawOp) :=
    if lines = ⊤ then none
    else some ((List.range lines.toNat).map fun index =>
      drawLine canvasWidth dpr measure index lineHeightDPR fontSizeDPR)
  let canvas : Canvas :=
    { width := canvasWidth,
      height := scrollHeight * dpr,
      background := styles.numberBgColor,
      fillColor := styles.numberColor,
      textAlign := "end",
      fontSizePx := fontSizeDPR,
      fontFamily := css.fontFamily,
      ops := ops }
  { snapshot := snap,
    canvas := canvas,
    hostWrite := ops.map fun _ => setStyle measure (dataURLOf canvas) }

/-! ### Concrete fixtures for witnesses -/

/-- A layout oracle answering 20px heights and 8px widths. -/
def testLayout : LayoutOracle := fun _ => { clientHeight := 20, clientWidth := 8 }

/-- A layout oracle answering zero for every readback (a degenerate host
whose measured line height is 0). -/
def zeroLayout : LayoutOracle := fun _ => { clientHeight := 0, clientWidth := 0 }

/-- A fixed data-URL oracle. -/
def testURL : Canvas → String := fun _ => "data:image/png;base64,AAAA"

/-- A concrete computed style. -/
def testCSS : CSSStyle := ⟨"4px", "8px", "20px", "16px", "serif", "red"⟩

/-- A host with no configuration attributes set. -/
def noAttrs : Attrs := fun _ => none

/-- No constructor override record. -/
def noOverride : TStyles := {}

/-! ### Render-pass theorems -/

/-- When the measured line height is nonzero the drawing loop runs
`⌈scrollHeight / lineHeight⌉.toNat` times and the pass completes. -/
theorem handleRender_ops (layout : LayoutOracle) (dataURLOf : Canvas → String)
    (css : CSSStyle) (attrs : Attrs) (override : TStyles)
    (scrollHeight dpr : ℚ) (prev : Snapshot)
    (hL : (getMeasure layout css (ensureStyles attrs override)).lineHeight ≠ 0) :
    (handleRender layout dataURLOf css attrs override scrollHeight dpr
        prev).canvas.ops =
      some ((List.range
          (⌈scrollHeight /
            (getMeasure layout css (ensureStyles attrs override)).lineHeight⌉.toNat)).map
        fun index =>
          drawLine
            ((getMeasure layout css (ensureStyles attrs override)).nuWidth * dpr)
            dpr (getMeasure layout css (ensureStyles attrs override)) index
            ((getMeasure layout css (ensureStyles attrs override)).lineHeight * dpr)
            ((getMeasure layout css (ensureStyles attrs override)).fontSize * dpr)) := by
  have h1 : jsLines scrollHeight
      (getMeasure layout css (ensureStyles attrs override)).lineHeight =
      ((⌈scrollHeight /
          (getMeasure layout css (ensureStyles attrs override)).lineHeight⌉.toNat
        : ℕ) : ℕ∞) := by
    simp [jsLines, hL]
  simp [handleRender, h1]

/-- Claim C1: a render pass over a host with scroll height `S` and a
positive measured line height `L` draws exactly `⌈S / L⌉` numerals, and
they are exactly the decimal strings of 1 through `⌈S / L⌉`, in increasing
order, with no gaps and no duplicates. -/
theorem render_draws_numerals (layout : LayoutOracle)
    (dataURLOf : Canvas → String) (css : CSSStyle) (attrs : Attrs)
    (override : TStyles) (scrollHeight dpr : ℚ) (prev : Snapshot)
    (hL : 0 < (getMeasure layout css (ensureStyles attrs override)).lineHeight)
    (hS : 0 ≤ scrollHeight) :
    ∃ ops : List DrawOp,
      (handleRender layout dataURLOf css attrs override scrollHeight dpr
          prev).canvas.ops = some ops ∧
      (ops.length : ℤ) =
        ⌈scrollHeight /
          (getMeasure layout css (ensureStyles attrs override)).lineHeight⌉ ∧
      ops.map DrawOp.text =
        (List.range ops.length).map fun i => Nat.repr (i + 1) := by
  refine ⟨_, handleRender_ops layout dataURLOf css attrs override scrollHeight
    dpr prev (ne_of_gt hL), ?_, ?_⟩
  · simp only [List.length_map, List.length_range]
    exact Int.toNat_of_nonneg (Int.ceil_nonneg (div_nonneg hS hL.le))
  · simp [List.map_map, Function.comp, drawLine]

/-- Witness for C1: scroll height 100, measured line height 20 — five
numerals, "1" through "5". -/
theorem render_draws_numerals_witness :
    (0 : ℚ) <
      (getMeasure testLayout testCSS (ensureStyles noAttrs noOverride)).lineHeight ∧
    (0 : ℚ) ≤ 100 ∧
    ∃ ops : List DrawOp,
      (handleRender testLayout testURL testCSS noAttrs noOverride 100 1
          emptySnap).canvas.ops = some ops ∧
      (ops.length : ℤ) =
        ⌈(100 : ℚ) /
          (getMeasure testLayout testCSS (ensureStyles noAttrs noOverride)).lineHeight⌉ ∧
      ops.map DrawOp.text =
        (List.range ops.length).map fun i => Nat.repr (i + 1) :=
  ⟨by norm_num [getMeasure, testLayout], by norm_num,
   render_draws_numerals testLayout testURL testCSS noAttrs noOverride 100 1
     emptySnap (by norm_num [getMeasure, testLayout]) (by norm_num)⟩

/-- Claim C5: every drawn numeral `index + 1` sits at
`x = canvas.width - nuPadding * dpr * 2` (end-anchored) and
`y = paddingTop * dpr + lineHeightDPR * index + (lineHeightDPR + fontSizeDPR) / 2`,
where `lineHeightDPR` and `fontSizeDPR` are the DPR-scaled line height and
font size of the same measurement. -/
theorem render_draw_positions (layout : LayoutOracle)
    (dataURLOf : Canvas → String) (css : CSSStyle) (attrs : Attrs)
    (override : TStyles) (scrollHeight dpr : ℚ) (prev : Snapshot)
    (ops : List DrawOp)
    (hops : (handleRender layout dataURLOf css attrs override scrollHeight dpr
        prev).canvas.ops = some ops)
    (i : ℕ) (hi : i < ops.length) :
    ops[i]? = some
      { text := Nat.repr (i + 1),
        x := (handleRender layout dataURLOf css attrs override scrollHeight dpr
            prev).canvas.width -
          (getMeasure layout css (ensureStyles attrs override)).nuPadding *
            dpr * 2,
        y := (getMeasure layout css (ensureStyles attrs override)).paddingTop *
            dpr +
          ((getMeasure layout css (ensureStyles attrs override)).lineHeight *
            dpr) * (i : ℚ) +
          ((getMeasure layout css (ensureStyles attrs override)).lineHeight *
              dpr +
            (getMeasure layout css (ensureStyles attrs override)).fontSize *
              dpr) / 2 } := by
  have hne : jsLines scrollHeight
      (getMeasure layout css (ensureStyles attrs override)).lineHeight ≠ ⊤ := by
    intro htop
    simp [handleRender, htop] at hops
  have hops' : ops = (List.range (jsLines scrollHeight
      (getMeasure layout css (ensureStyles attrs override)).lineHeight).toNat).map
        fun index =>
          drawLine
            ((getMeasure layout css (ensureStyles attrs override)).nuWidth * dpr)
            dpr (getMeasure layout css (ensureStyles attrs override)) index
            ((getMeasure layout css (ensureStyles attrs override)).lineHeight * dpr)
            ((getMeasure layout css (ensureStyles attrs override)).fontSize * dpr) := by
    have := hops
    simp only [handleRender, if_neg hne] at this
    exact (Option.some_inj.mp this).symm
  subst hops'
  have hi' : i < (jsLines scrollHeight
      (getMeasure layout css (ensureStyles attrs override)).lineHeight).toNat := by
    simpa using hi
  simp [List.getElem?_map, List.getElem?_range, hi', drawLine, handleRender]

/-- Witness for C5: in the 100px/20px fixture the third numeral is "3" at
`x = 8 - 16 = -8` and `y = 20 + 40 + 20 = 80`. -/
theorem render_draw_positions_witness :
    (handleRender testLayout testURL testCSS noAttrs noOverride 100 1
        emptySnap).canvas.ops =
      some ((List.range 5).map fun index =>
        drawLine 8 1 (getMeasure testLayout testCSS
          (ensureStyles noAttrs noOverride)) index 20 20) ∧
    ((List.range 5).map fun index =>
        drawLine 8 1 (getMeasure testLayout testCSS
          (ensureStyles noAttrs noOverride)) index 20 20)[2]? = some
      { text := Nat.repr 3, x := -8, y := 80 } := by
  have h1 : (handleRender testLayout testURL testCSS noAttrs noOverride 100 1
      emptySnap).canvas.ops =
      some ((List.range 5).map fun index =>
        drawLine 8 1 (getMeasure testLayout testCSS
          (ensureStyles noAttrs noOverride)) index 20 20) := by
    simp [handleRender, jsLines, getMeasure, testLayout]
    norm_num
    rw [show Int.toNat 5 = 5 from rfl]
  refine ⟨h1, ?_⟩
  have h2 := render_draw_positions testLayout testURL testCSS noAttrs
    noOverride 100 1 emptySnap _ h1 2 (by simp)
  rw [h2]
  norm_num [getMeasure, testLayout, handleRender]

/-- Counterexample to claim C4 as stated: the render pass does not apply
the raster as a viewport-fixed background.  In the concrete 100px/20px
fixture the host write's background-attachment is "local" (the image
scrolls with the host's content), not "fixed". -/
theorem render_background_attachment_not_fixed :
    ((handleRender testLayout testURL testCSS noAttrs noOverride 100 1
        emptySnap).hostWrite.map HostStyleWrite.backgroundAttachment) ≠
      some "fixed" := by
  have h : (handleRender testLayout testURL testCSS noAttrs noOverride 100 1
      emptySnap).hostWrite.map HostStyleWrite.backgroundAttachment =
      some "local" := by
    have hne : jsLines 100 (getMeasure testLayout testCSS
        (ensureStyles noAttrs noOverride)).lineHeight ≠ ⊤ := by
      norm_num [jsLines, getMeasure, testLayout]
    simp [handleRender, if_neg hne, setStyle]
  rw [h]
  simp

/-- Claim C4 as amended: after every completed render pass the raster is
reapplied to the host as a non-repeating background image with
background-attachment `local` (scrolling with the host's content rather
than fixed to the viewport), background-size (nuWidthPx × auto), and the
host's box-sizing set to border-box. -/
theorem render_host_background (layout : LayoutOracle)
    (dataURLOf : Canvas → String) (css : CSSStyle) (attrs : Attrs)
    (override : TStyles) (scrollHeight dpr : ℚ) (prev : Snapshot)
    (hL : (getMeasure layout css (ensureStyles attrs override)).lineHeight ≠ 0) :
    ∃ w : HostStyleWrite,
      (handleRender layout dataURLOf css attrs override scrollHeight dpr
          prev).hostWrite = some w ∧
      w.backgroundRepeat = "no-repeat" ∧
      w.backgroundAttachment = "local" ∧
      w.backgroundSizeWidthPx =
        (getMeasure layout css (ensureStyles attrs override)).nuWidth ∧
      w.backgroundSizeHeight = "auto" ∧
      w.boxSizing = "border-box" ∧
      w.backgroundImage = "url(" ++
        dataURLOf (handleRender layout dataURLOf css attrs override
          scrollHeight dpr prev).canvas ++ ")" := by
  have hne : jsLines scrollHeight
      (getMeasure layout css (ensureStyles attrs override)).lineHeight ≠ ⊤ := by
    simp [jsLines, hL]
  refine ⟨setStyle (getMeasure layout css (ensureStyles attrs override))
    (dataURLOf (handleRender layout dataURLOf css attrs override scrollHeight
      dpr prev).canvas), ?_, rfl, rfl, rfl, rfl, rfl, rfl⟩
  simp [handleRender, if_neg hne]

/-- Witness for the amended C4: the concrete fixture's host write carries
the expected background declarations. -/
theorem render_host_background_witness :
    ∃ w : HostStyleWrite,
      (handleRender testLayout testURL testCSS noAttrs noOverride 100 1
          emptySnap).hostWrite = some w ∧
      w.backgroundRepeat = "no-repeat" ∧
      w.backgroundAttachment = "local" ∧
      w.backgroundSizeWidthPx =
        (getMeasure testLayout testCSS (ensureStyles noAttrs noOverride)).nuWidth ∧
      w.backgroundSizeHeight = "auto" ∧
      w.boxSizing = "border-box" ∧
      w.backgroundImage = "url(" ++
        testURL (handleRender testLayout testURL testCSS noAttrs noOverride
          100 1 emptySnap).canvas ++ ")" :=
  render_host_background testLayout testURL testCSS noAttrs noOverride 100 1
    emptySnap (by norm_num [getMeasure, testLayout])

/-- Claim C7: on every completed render pass the padding-left written to
the host equals the measured gutter width plus the host's measured right
padding, in pixels. -/
theorem render_padding_left (layout : LayoutOracle)
    (dataURLOf : Canvas → String) (css : CSSStyle) (attrs : Attrs)
    (override : TStyles) (scrollHeight dpr : ℚ) (prev : Snapshot)
    (hL : (getMeasure layout css (ensureStyles attrs override)).lineHeight ≠ 0) :
    ∃ w : HostStyleWrite,
      (handleRender layout dataURLOf css attrs override scrollHeight dpr
          prev).hostWrite = some w ∧
      w.paddingLeftPx =
        (getMeasure layout css (ensureStyles attrs override)).nuWidth +
          (getMeasure layout css (ensureStyles attrs override)).paddingRight := by
  have hne : jsLines scrollHeight
      (getMeasure layout css (ensureStyles attrs override)).lineHeight ≠ ⊤ := by
    simp [jsLines, hL]
  refine ⟨setStyle (getMeasure layout css (ensureStyles attrs override))
    (dataURLOf (handleRender layout dataURLOf css attrs override scrollHeight
      dpr prev).canvas), ?_, rfl⟩
  simp [handleRender, if_neg hne]

/-- Witness for C7: in the fixture the written padding-left is
8 + 8 = 16 pixels. -/
theorem render_padding_left_witness :
    (∃ w : HostStyleWrite,
      (handleRender testLayout testURL testCSS noAttrs noOverride 100 1
          emptySnap).hostWrite = some w ∧
      w.paddingLeftPx =
        (getMeasure testLayout testCSS (ensureStyles noAttrs noOverride)).nuWidth +
          (getMeasure testLayout testCSS
            (ensureStyles noAttrs noOverride)).paddingRight) ∧
    (getMeasure testLayout testCSS (ensureStyles noAttrs noOverride)).nuWidth +
        (getMeasure testLayout testCSS
          (ensureStyles noAttrs noOverride)).paddingRight = (16 : ℚ) :=
  ⟨render_padding_left testLayout testURL testCSS noAttrs noOverride 100 1
      emptySnap (by norm_num [getMeasure, testLayout]),
   by norm_num [getMeasure, testLayout]⟩

/-- `Option.getD` over the `||`-defaulted attribute read agrees with the
spec's per-field precedence rule. -/
theorem getD_eq_specResolveField (ov a : Option String) (d : String) :
    ov.getD (jsOrDefault a d) = specResolveField ov a d := by
  cases ov <;> cases a <;> simp [jsOrDefault, specResolveField]

/-- Claim C8: the configuration is re-resolved from the host's current
data attributes on every render, with defaults 64px / 8px / #666 /
#f4f4f4, and a supplied override field takes precedence over the
attribute-derived value: `ensureStyles` coincides with the spec's
resolution rule, resolves the declared defaults on a bare host, and the
render pass paints with exactly the resolved colors. -/
theorem ensureStyles_resolution :
    (∀ (attrs : Attrs) (override : TStyles),
        ensureStyles attrs override = specResolveStyles attrs override) ∧
    (ensureStyles noAttrs noOverride =
        { numberPadding := "8px", numberWidth := "64px",
          numberColor := "#666", numberBgColor := "#f4f4f4" }) ∧
    (∀ (layout : LayoutOracle) (dataURLOf : Canvas → String) (css : CSSStyle)
        (attrs : Attrs) (override : TStyles) (scrollHeight dpr : ℚ)
        (prev : Snapshot),
        (handleRender layout dataURLOf css attrs override scrollHeight dpr
            prev).canvas.background = (ensureStyles attrs override).numberBgColor ∧
        (handleRender layout dataURLOf css attrs override scrollHeight dpr
            prev).canvas.fillColor = (ensureStyles attrs override).numberColor) := by
  refine ⟨?_, ?_, ?_⟩
  · intro attrs override
    simp [ensureStyles, specResolveStyles, getAttr, getD_eq_specResolveField]
  · rfl
  · intro layout dataURLOf css attrs override scrollHeight dpr prev
    exact ⟨rfl, rfl⟩

/-- Claim C9: invoking the render body twice with no intervening change to
the host's computed style, attributes, content or scroll height produces
identical raster output (and an identical host write) both times: the pass
reads none of the per-instance state it mutates, so the second run from
the first run's snapshot repaints the same canvas. -/
theorem render_idempotent (layout : LayoutOracle)
    (dataURLOf : Canvas → String) (css : CSSStyle) (attrs : Attrs)
    (override : TStyles) (scrollHeight dpr : ℚ) (prev : Snapshot) :
    ((handleRender layout dataURLOf css attrs override scrollHeight dpr
        (handleRender layout dataURLOf css attrs override scrollHeight dpr
          prev).snapshot).canvas =
      (handleRender layout dataURLOf css attrs override scrollHeight dpr
        prev).canvas ∧
    (handleRender layout dataURLOf css attrs override scrollHeight dpr
        (handleRender layout dataURLOf css attrs override scrollHeight dpr
          prev).snapshot).hostWrite =
      (handleRender layout dataURLOf css attrs override scrollHeight dpr
        prev).hostWrite) ∧
    ∀ prev₁ prev₂ : Snapshot,
      (handleRender layout dataURLOf css attrs override scrollHeight dpr
          prev₁).canvas =
        (handleRender layout dataURLOf css attrs override scrollHeight dpr
          prev₂).canvas ∧
      (handleRender layout dataURLOf css attrs override scrollHeight dpr
          prev₁).hostWrite =
        (handleRender layout dataURLOf css attrs override scrollHeight dpr
          prev₂).hostWrite :=
  ⟨⟨rfl, rfl⟩, fun _ _ => ⟨rfl, rfl⟩⟩

/-- Claim C10: the drawing loop terminates only when the measured line
height is nonzero.  With `lineHeight = 0` and `scrollHeight > 0` the JS
bound `Math.ceil(scrollHeight / 0)` is infinite and the loop diverges
(no draw list, no host write); with `scrollHeight = 0` and `lineHeight = 0`
the bound is `NaN`, the loop body never runs, and the pass completes with
zero numerals; with a nonzero line height the pass always completes. -/
theorem render_termination (layout : LayoutOracle)
    (dataURLOf : Canvas → String) (css : CSSStyle) (attrs : Attrs)
    (override : TStyles) (scrollHeight dpr : ℚ) (prev : Snapshot) :
    ((getMeasure layout css (ensureStyles attrs override)).lineHeight = 0 →
      0 < scrollHeight →
      (handleRender layout dataURLOf css attrs override scrollHeight dpr
          prev).canvas.ops = none ∧
      (handleRender layout dataURLOf css attrs override scrollHeight dpr
          prev).hostWrite = none) ∧
    ((getMeasure layout css (ensureStyles attrs override)).lineHeight = 0 →
      scrollHeight = 0 →
      (handleRender layout dataURLOf css attrs override scrollHeight dpr
          prev).canvas.ops = some []) ∧
    ((getMeasure layout css (ensureStyles attrs override)).lineHeight ≠ 0 →
      ∃ ops : List DrawOp,
        (handleRender layout dataURLOf css attrs override scrollHeight dpr
            prev).canvas.ops = some ops) := by
  refine ⟨?_, ?_, ?_⟩
  · intro hL hS
    have htop : jsLines scrollHeight
        (getMeasure layout css (ensureStyles attrs override)).lineHeight = ⊤ := by
      simp [jsLines, hL, hS]
    exact ⟨by simp [handleRender, htop], by simp [handleRender, htop]⟩
  · intro hL hS
    have hz : jsLines scrollHeight
        (getMeasure layout css (ensureStyles attrs override)).lineHeight = 0 := by
      simp [jsLines, hL, hS]
    simp [handleRender, hz]
  · intro hL
    exact ⟨_, handleRender_ops layout dataURLOf css attrs override scrollHeight
      dpr prev hL⟩

/-- Witness for C10: a zero-measuring host with scroll height 100 diverges;
with scroll height 0 it completes drawing nothing; the 20px fixture
completes. -/
theorem render_termination_witness :
    ((handleRender zeroLayout testURL testCSS noAttrs noOverride 100 1
        emptySnap).canvas.ops = none ∧
     (handleRender zeroLayout testURL testCSS noAttrs noOverride 100 1
        emptySnap).hostWrite = none) ∧
    (handleRender zeroLayout testURL testCSS noAttrs noOverride 0 1
        emptySnap).canvas.ops = some [] ∧
    ∃ ops : List DrawOp,
      (handleRender testLayout testURL testCSS noAttrs noOverride 100 1
          emptySnap).canvas.ops = some ops :=
  ⟨(render_termination zeroLayout testURL testCSS noAttrs noOverride 100 1
      emptySnap).1 (by norm_num [getMeasure, zeroLayout]) (by norm_num),
   (render_termination zeroLayout testURL testCSS noAttrs noOverride 0 1
      emptySnap).2.1 (by norm_num [getMeasure, zeroLayout]) rfl,
   (render_termination testLayout testURL testCSS noAttrs noOverride 100 1
      emptySnap).2.2 (by norm_num [getMeasure, testLayout])⟩

end Nut
